import Mathlib

/-!
Shallow embedding of the Gemini Historical Artifact Description app
(`Project Files/app.py`): model catalog resolution, model selection,
payload construction, the fallback-chain analysis invoker, and the
UI-level gating and error classification of `main`.

The remote provider is modelled as explicit inputs: the model-listing
query outcome is an `Except` value, and per-model content generation is
a function `gen : String → List Part → Except String String` (model
name and payload to either an error message or generated text).
-/

namespace ArtifactApp

/-- A decoded image (`PIL.Image.Image`): opaque to the core logic, only
its dimensions are read by the UI. -/
structure PILImage where
  width : Nat
  height : Nat
deriving DecidableEq, Repr

/-- One element of the request payload list `content` built inside
`get_gemini_analysis`: a text segment or the image. -/
inductive Part where
  | text (s : String)
  | image (img : PILImage)
deriving DecidableEq, Repr

/-- The fixed instruction template `ARTIFACT_ANALYSIS_PROMPT` (app.py lines 62-80). -/
def ARTIFACT_ANALYSIS_PROMPT : String :=
  "\nYou are an expert archaeologist and historian specializing in artifact analysis.\n\nAnalyze the provided image of a historical artifact and generate a comprehensive professional report.\n\nPlease include:\n1. **Artifact Type & Classification** - What category does this artifact belong to?\n2. **Estimated Period/Era** - When was this likely created? (with confidence level)\n3. **Materials & Composition** - What materials are visible and their significance?\n4. **Dimensions & Scale** - Approximate size and proportions\n5. **Craftsmanship & Technique** - How was this made? What skills were required?\n6. **Condition Assessment** - Current state of preservation, visible wear, damage\n7. **Cultural & Historical Significance** - Why is this important?\n8. **Possible Origin & Geographic Location** - Where might this have come from?\n9. **Similar Artifacts** - Known comparative examples\n10. **Recommendations for Further Study** - What tests or analysis would help?\n\nFormat in clear, structured markdown. Add brief disclaimers about visual-only analysis limitations.\n"

/-- A character of the whitespace set stripped by Python `str.strip()`
(restricted to ASCII). -/
def isPyWhitespace (c : Char) : Bool :=
  c == ' ' || c == '\t' || c == '\n' || c == '\x0d' || c == '\x0b' || c == '\x0c'

/-- Model of Python `s.strip()`: remove leading and trailing whitespace. -/
def pyStrip (s : String) : String :=
  String.mk (((s.data.dropWhile isPyWhitespace).reverse.dropWhile isPyWhitespace).reverse)

/-- Model of Python `s.lower()` (restricted to ASCII letters). -/
def pyLower (s : String) : String :=
  String.mk (s.data.map Char.toLower)

/-- Model of Python `s.split(sep)` for a single-character separator, over the
character list. -/
def pySplitChar (sep : Char) : List Char → List (List Char)
  | [] => [[]]
  | c :: cs =>
      match pySplitChar sep cs with
      | [] => [[c]]
      | g :: gs => if c == sep then [] :: g :: gs else (c :: g) :: gs

/-- Python `name.split(sep)[-1]`: the last component of the split. -/
def pySplitLast (sep : Char) (name : String) : String :=
  String.mk ((pySplitChar sep name.data).getLastD name.data)

/-- The hardcoded fallback model list, appearing both at app.py line 43
(catalog resolution failure) and line 91 (empty catalog at invocation). -/
def FALLBACK_MODELS : List String :=
  ["gemini-2.5-flash", "gemini-2.0-flash", "gemini-2.5-pro"]

/-- A model descriptor as returned by `genai.list_models()`:
a name (possibly path-qualified, e.g. "models/gemini-2.5-flash") and,
when the attribute is present, its supported generation methods
(`none` models a descriptor lacking the attribute, per the `hasattr` check). -/
structure ProviderModel where
  name : String
  supported_generation_methods : Option (List String)
deriving DecidableEq, Repr

/-- Catalog resolution (app.py lines 33-43): filter the listed models to
those advertising `generateContent`, keeping the last path component of
each name; if the listing query raised, substitute the hardcoded
fallback list. -/
def AVAILABLE_MODELS (listing : Except String (List ProviderModel)) : List String :=
  match listing with
  | Except.error _ => FALLBACK_MODELS
  | Except.ok models =>
      models.filterMap fun m =>
        match m.supported_generation_methods with
        | some methods =>
            if ("generateContent") ∈ methods then
              some (pySplitLast '/' m.name)
            else none
        | none => none

/-- Model selection (app.py lines 45-55): prefer "gemini-2.5-flash",
then "gemini-2.0-flash", then "gemini-2.5-pro", else the first entry of
the catalog, else the hardcoded default. -/
def GEMINI_MODEL (available : List String) : String :=
  if ("gemini-2.5-flash") ∈ available then "gemini-2.5-flash"
  else if ("gemini-2.0-flash") ∈ available then "gemini-2.0-flash"
  else if ("gemini-2.5-pro") ∈ available then "gemini-2.5-pro"
  else
    match available with
    | m :: _ => m
    | [] => "gemini-2.5-flash"

/-- The payload `content` built inside the loop of `get_gemini_analysis`
(app.py lines 99-104): the instruction template, then — when the note is
non-empty after stripping whitespace — a labeled context segment holding
the note verbatim, then the image. -/
def buildContent (user_notes : String) (pil_image : PILImage) : List Part :=
  let content := [Part.text ARTIFACT_ANALYSIS_PROMPT]
  let content :=
    if pyStrip user_notes ≠ "" then
      content ++ [Part.text ("\nAdditional Context from User: " ++ user_notes ++ "\n")]
    else content
  content ++ [Part.image pil_image]

/-- Model of Python `str(last_error)` where `last_error` is `None` or an exception
whose message is the string. -/
def pyStrOption : Option String → String
  | none => "None"
  | some e => e

/-- The fallback loop of `get_gemini_analysis` (app.py lines 95-115),
instrumented with the sequence of models attempted: try each model in
list order, return the first success, carry the last error, and when the
list is exhausted produce the composite error message. -/
def tryModels (gen : String → List Part → Except String String) (content : List Part) :
    List String → Option String → List String × Except String String
  | [], last_error => ([], Except.error ("Failed to analyze: " ++ pyStrOption last_error))
  | model_name :: rest, _ =>
      match gen model_name content with
      | Except.ok t => ([model_name], Except.ok t)
      | Except.error e =>
          let r := tryModels gen content rest (some e)
          (model_name :: r.1, r.2)

/-- The model list actually iterated (app.py line 91): the resolved
catalog when non-empty, else the hardcoded fallback list. -/
def models_to_try (available : List String) : List String :=
  if available.isEmpty then FALLBACK_MODELS else available

/-- The core function `get_gemini_analysis` (app.py lines 87-115): generated text on the
first model that succeeds, or the composite error after all models fail. -/
def get_gemini_analysis (gen : String → List Part → Except String String)
    (user_notes : String) (pil_image : PILImage) (available : List String) :
    Except String String :=
  (tryModels gen (buildContent user_notes pil_image) (models_to_try available) none).2

/-- The sequence of model names `get_gemini_analysis` attempts (the
models for which `genai.GenerativeModel(model_name)` is instantiated and
generation is submitted), in order. -/
def attemptedModels (gen : String → List Part → Except String String)
    (user_notes : String) (pil_image : PILImage) (available : List String) :
    List String :=
  (tryModels gen (buildContent user_notes pil_image) (models_to_try available) none).1

/-- Whether the generation attempt raised. -/
def isError (r : Except String String) : Bool :=
  match r with
  | Except.error _ => true
  | Except.ok _ => false

/-- Model of Python truthiness of `GOOGLE_API_KEY` after `os.getenv`: falsy when
the variable is unset (`None`) or set to the empty string. -/
def falsyKey (GOOGLE_API_KEY : Option String) : Bool :=
  match GOOGLE_API_KEY with
  | none => true
  | some s => s == ""

/-- The sidebar credential panel (app.py lines 250-261). -/
inductive SidebarStatus where
  | apiKeyConfigured
  | apiKeyMissing
deriving DecidableEq, Repr

/-- Which credential message the sidebar shows: success when the key is
truthy, the "API Key Missing" error otherwise. -/
def sidebarStatus (GOOGLE_API_KEY : Option String) : SidebarStatus :=
  if falsyKey GOOGLE_API_KEY then SidebarStatus.apiKeyMissing
  else SidebarStatus.apiKeyConfigured

/-- The `disabled` argument of the Analyze button (app.py line 299):
`uploaded_file is None or not GOOGLE_API_KEY`. -/
def analyze_button_disabled (uploaded_file_present : Bool)
    (GOOGLE_API_KEY : Option String) : Bool :=
  !uploaded_file_present || falsyKey GOOGLE_API_KEY

/-- Test whether the pattern occurs at the start of the second list. -/
def listStartsWith : List Char → List Char → Bool
  | [], _ => true
  | _ :: _, [] => false
  | p :: ps, c :: cs => p == c && listStartsWith ps cs

/-- Test whether the pattern occurs as a contiguous run of the list. -/
def listContainsSeq (pat : List Char) : List Char → Bool
  | [] => listStartsWith pat []
  | c :: cs => listStartsWith pat (c :: cs) || listContainsSeq pat cs

/-- Model of Python `pat in s` on strings: substring occurrence. -/
def strContains (s pat : String) : Bool :=
  listContainsSeq pat.data s.data

/-- The troubleshooting branches of the terminal-error handler in `main`
(app.py lines 381-439). -/
inductive TroubleshootBranch where
  | noCompatibleModels
  | authenticationError
  | rateLimitExceeded
  | genericFallback
deriving DecidableEq, Repr

/-- The terminal-error classification of `main` (app.py lines 379-424):
lowercase the message, then test the branch conditions in order. -/
def classify_error (error_str : String) : TroubleshootBranch :=
  let error_msg := pyLower error_str
  if strContains error_msg ("not found") || strContains error_msg ("not supported") then
    TroubleshootBranch.noCompatibleModels
  else if strContains error_msg ("401") || strContains error_msg ("permission") ||
      strContains error_msg ("unauthorized") || strContains error_msg ("invalid") then
    TroubleshootBranch.authenticationError
  else if strContains error_msg ("rate limit") then
    TroubleshootBranch.rateLimitExceeded
  else
    TroubleshootBranch.genericFallback

/-- Outcome of the results section of `main` (app.py lines 345-439) for
one run: nothing (button not pressed), one of the two proactive error
messages, a rendered analysis, or a classified failure. -/
inductive ResultsOutcome where
  | idle
  | invalidImageError
  | missingKeyError
  | analysisSuccess (text : String)
  | analysisFailure (branch : TroubleshootBranch) (error_str : String)
deriving DecidableEq, Repr

/-- The results-section dispatch of `main` (app.py lines 345-439):
when the button was pressed, check the decoded image, then the key, then
run `get_gemini_analysis` and classify any terminal failure. -/
def resultsSection (analyze_button : Bool) (pil_image : Option PILImage)
    (GOOGLE_API_KEY : Option String)
    (gen : String → List Part → Except String String)
    (user_notes : String) (available : List String) : ResultsOutcome :=
  if !analyze_button then ResultsOutcome.idle
  else
    match pil_image with
    | none => ResultsOutcome.invalidImageError
    | some img =>
        if falsyKey GOOGLE_API_KEY then ResultsOutcome.missingKeyError
        else
          match get_gemini_analysis gen user_notes img available with
          | Except.ok result => ResultsOutcome.analysisSuccess result
          | Except.error e => ResultsOutcome.analysisFailure (classify_error e) e

/-- A provider mock for which the flash model succeeds and every other
model raises. -/
def genSecondOk : String → List Part → Except String String :=
  fun model_name _ =>
    if model_name == "gemini-2.5-flash" then Except.ok ("REPORT")
    else Except.error ("boom")

/-- A provider mock for which every model raises, with a distinct
message per model. -/
def genDistinctErrors : String → List Part → Except String String :=
  fun model_name _ => Except.error ("err-" ++ model_name)

/-- A provider mock for which every model raises with the same message. -/
def genQuotaError : String → List Part → Except String String :=
  fun _ _ => Except.error ("quota exceeded")

theorem models_to_try_ne_nil (available : List String) :
    models_to_try available ≠ [] := by
  cases available with
  | nil => simp [models_to_try, FALLBACK_MODELS]
  | cons a l => simp [models_to_try]

theorem tryModels_trace_take (gen : String → List Part → Except String String)
    (content : List Part) :
    ∀ (ms : List String) (last : Option String),
      ∃ k, (tryModels gen content ms last).1 = ms.take k := by
  intro ms
  induction ms with
  | nil => intro _; exact ⟨0, rfl⟩
  | cons m rest ih =>
      intro last
      cases hg : gen m content with
      | ok t => exact ⟨1, by simp [tryModels, hg]⟩
      | error e =>
          obtain ⟨k, hk⟩ := ih (some e)
          exact ⟨k + 1, by simp [tryModels, hg, hk]⟩

theorem tryModels_cons_error (gen : String → List Part → Except String String)
    (content : List Part) (m : String) (rest : List String)
    (last : Option String) (e : String) (hg : gen m content = Except.error e) :
    tryModels gen content (m :: rest) last =
      (m :: (tryModels gen content rest (some e)).1,
       (tryModels gen content rest (some e)).2) := by
  simp [tryModels, hg]

theorem tryModels_all_error (gen : String → List Part → Except String String)
    (content : List Part) (errMsg : String → String) :
    ∀ (ms : List String) (last : Option String), ms ≠ [] →
      (∀ m ∈ ms, gen m content = Except.error (errMsg m)) →
      (tryModels gen content ms last).2 =
        Except.error ("Failed to analyze: " ++ errMsg (ms.getLastD "")) := by
  intro ms
  induction ms with
  | nil => intro last h; exact absurd rfl h
  | cons m rest ih =>
      intro last _ hall
      have hm : gen m content = Except.error (errMsg m) :=
        hall m (List.mem_cons_self m rest)
      cases rest with
      | nil => simp [tryModels, hm, pyStrOption]
      | cons m2 rest2 =>
          have hrec := ih (some (errMsg m)) (by simp)
            (fun x hx => hall x (List.mem_cons_of_mem m hx))
          rw [tryModels_cons_error gen content m (m2 :: rest2) last (errMsg m) hm]
          simpa [List.getLastD_cons] using hrec

theorem tryModels_first_success (gen : String → List Part → Except String String)
    (content : List Part) (t : String) :
    ∀ (pre : List String) (m : String) (post : List String) (last : Option String),
      (∀ x ∈ pre, isError (gen x content) = true) →
      gen m content = Except.ok t →
      tryModels gen content (pre ++ m :: post) last = (pre ++ [m], Except.ok t) := by
  intro pre
  induction pre with
  | nil =>
      intro m post last _ hsucc
      simp [tryModels, hsucc]
  | cons p ps ih =>
      intro m post last hfail hsucc
      have hp : isError (gen p content) = true := hfail p (by simp)
      cases hg : gen p content with
      | ok t0 => rw [hg] at hp; simp [isError] at hp
      | error e =>
          have hrec := ih m post (some e)
            (fun x hx => hfail x (List.mem_cons_of_mem p hx)) hsucc
          simp [tryModels, hg, hrec]

/-- C1: for every iterated model list, `get_gemini_analysis` returns the
text of the first model whose generation attempt succeeds (all models
before it having failed), attempts no model after it, and attempts each
entry of the list at most once (the attempt sequence never exceeds the
multiplicity of any entry in the list). -/
theorem c1_first_success_short_circuit
    (gen : String → List Part → Except String String)
    (user_notes : String) (pil_image : PILImage) (available : List String)
    (pre : List String) (m : String) (post : List String) (t : String)
    (hsplit : models_to_try available = pre ++ m :: post)
    (hfail : ∀ x ∈ pre, isError (gen x (buildContent user_notes pil_image)) = true)
    (hsucc : gen m (buildContent user_notes pil_image) = Except.ok t) :
    get_gemini_analysis gen user_notes pil_image available = Except.ok t ∧
    attemptedModels gen user_notes pil_image available = pre ++ [m] ∧
    ∀ x, List.count x (attemptedModels gen user_notes pil_image available) ≤
      List.count x (models_to_try available) := by
  have h := tryModels_first_success gen (buildContent user_notes pil_image) t
    pre m post none hfail hsucc
  refine ⟨?_, ?_, ?_⟩
  · unfold get_gemini_analysis
    rw [hsplit, h]
  · unfold attemptedModels
    rw [hsplit, h]
  · intro x
    unfold attemptedModels
    rw [hsplit, h]
    have hsub : List.Sublist (pre ++ [m]) (pre ++ m :: post) :=
      List.Sublist.append_left ((List.nil_sublist post).cons₂ m) pre
    simpa [hsplit] using hsub.count_le x

/-- Witness for C1: two models, the first fails and the second succeeds;
the second model's text is returned and both models appear once in the
attempt sequence. -/
theorem c1_witness :
    get_gemini_analysis genSecondOk ("") ⟨512, 512⟩
      ["gemini-2.5-pro", "gemini-2.5-flash"] = Except.ok ("REPORT") ∧
    attemptedModels genSecondOk ("") ⟨512, 512⟩
      ["gemini-2.5-pro", "gemini-2.5-flash"] =
      ["gemini-2.5-pro", "gemini-2.5-flash"] ∧
    ∀ x, List.count x (attemptedModels genSecondOk ("") ⟨512, 512⟩
        ["gemini-2.5-pro", "gemini-2.5-flash"]) ≤
      List.count x (models_to_try ["gemini-2.5-pro", "gemini-2.5-flash"]) :=
  c1_first_success_short_circuit genSecondOk ("") ⟨512, 512⟩
    ["gemini-2.5-pro", "gemini-2.5-flash"]
    ["gemini-2.5-pro"] ("gemini-2.5-flash") [] ("REPORT") rfl
    (by intro x hx; fin_cases hx; rfl) rfl

/-- C2: if every model in the iterated list fails, `get_gemini_analysis`
produces the single composite error message wrapping the message of the
last model's failure; the earlier per-model failures do not appear in
the result. -/
theorem c2_all_fail_wraps_last_error
    (gen : String → List Part → Except String String)
    (user_notes : String) (pil_image : PILImage) (available : List String)
    (errMsg : String → String)
    (hfail : ∀ m ∈ models_to_try available,
      gen m (buildContent user_notes pil_image) = Except.error (errMsg m)) :
    get_gemini_analysis gen user_notes pil_image available =
      Except.error ("Failed to analyze: " ++
        errMsg ((models_to_try available).getLastD (""))) := by
  unfold get_gemini_analysis
  exact tryModels_all_error gen (buildContent user_notes pil_image) errMsg
    (models_to_try available) none (models_to_try_ne_nil available) hfail

/-- Witness for C2: three failing models with distinct messages; the
composite error wraps the third message only. -/
theorem c2_witness :
    get_gemini_analysis genDistinctErrors ("") ⟨512, 512⟩ ["m1", "m2", "m3"] =
      Except.error ("Failed to analyze: err-m3") :=
  c2_all_fail_wraps_last_error genDistinctErrors ("") ⟨512, 512⟩
    ["m1", "m2", "m3"] (fun m => "err-" ++ m)
    (by intro m hm; fin_cases hm <;> rfl)

/-- C3: the model list the invoker iterates is never empty: an empty
resolved catalog is replaced by the hardcoded three-element fallback
list. -/
theorem c3_models_to_try_nonempty (available : List String) :
    models_to_try available ≠ [] ∧
    (available = [] →
      models_to_try available =
        ["gemini-2.5-flash", "gemini-2.0-flash", "gemini-2.5-pro"]) := by
  refine ⟨models_to_try_ne_nil available, ?_⟩
  intro h
  subst h
  rfl

/-- Witness for C3 at the empty catalog. -/
theorem c3_witness :
    models_to_try [] ≠ [] ∧
    models_to_try [] = ["gemini-2.5-flash", "gemini-2.0-flash", "gemini-2.5-pro"] :=
  ⟨(c3_models_to_try_nonempty []).1, (c3_models_to_try_nonempty []).2 rfl⟩

/-- C4 counterexample: with resolved catalog
["gemini-2.5-pro", "gemini-2.5-flash"] and every generation failing, the
invoker attempts the pro model first although preference selection
resolves to the flash model: the iteration does not put the
preference-selected flash identifier first. -/
theorem c4_counterexample :
    GEMINI_MODEL ["gemini-2.5-pro", "gemini-2.5-flash"] = "gemini-2.5-flash" ∧
    attemptedModels genQuotaError ("") ⟨512, 512⟩
      ["gemini-2.5-pro", "gemini-2.5-flash"] =
      ["gemini-2.5-pro", "gemini-2.5-flash"] ∧
    (attemptedModels genQuotaError ("") ⟨512, 512⟩
      ["gemini-2.5-pro", "gemini-2.5-flash"]).headD ("") ≠
      GEMINI_MODEL ["gemini-2.5-pro", "gemini-2.5-flash"] := by
  refine ⟨by decide, by decide, by decide⟩

/-- C4 (amended): the invoker attempts models in the order of the
resolved list itself — the attempt sequence is always an initial segment
of `models_to_try available` — with no reordering by preference. -/
theorem c4_attempts_initial_segment
    (gen : String → List Part → Except String String)
    (user_notes : String) (pil_image : PILImage) (available : List String) :
    ∃ k, attemptedModels gen user_notes pil_image available =
      (models_to_try available).take k :=
  tryModels_trace_take gen (buildContent user_notes pil_image)
    (models_to_try available) none

/-- C5: model selection is deterministic with preference 2.5-flash, then
2.0-flash, then 2.5-pro, then the first catalog entry, then the
hardcoded default; in particular a catalog containing the pro-tier
identifier and a flash-tier identifier resolves to a flash-tier
identifier. -/
theorem c5_selection_preference (available : List String) :
    (("gemini-2.5-flash") ∈ available →
      GEMINI_MODEL available = "gemini-2.5-flash") ∧
    (("gemini-2.5-flash") ∉ available → ("gemini-2.0-flash") ∈ available →
      GEMINI_MODEL available = "gemini-2.0-flash") ∧
    (("gemini-2.5-flash") ∉ available → ("gemini-2.0-flash") ∉ available →
      ("gemini-2.5-pro") ∈ available → GEMINI_MODEL available = "gemini-2.5-pro") ∧
    (∀ m rest, ("gemini-2.5-flash") ∉ available → ("gemini-2.0-flash") ∉ available →
      ("gemini-2.5-pro") ∉ available → available = m :: rest →
      GEMINI_MODEL available = m) ∧
    (available = [] → GEMINI_MODEL available = "gemini-2.5-flash") ∧
    (("gemini-2.5-pro") ∈ available →
      (("gemini-2.5-flash") ∈ available ∨ ("gemini-2.0-flash") ∈ available) →
      (GEMINI_MODEL available = "gemini-2.5-flash" ∨
       GEMINI_MODEL available = "gemini-2.0-flash")) := by
  refine ⟨?_, ?_, ?_, ?_, ?_, ?_⟩
  · intro h; simp [GEMINI_MODEL, h]
  · intro h1 h2; simp [GEMINI_MODEL, h1, h2]
  · intro h1 h2 h3; simp [GEMINI_MODEL, h1, h2, h3]
  · intro m rest h1 h2 h3 h4; subst h4; simp [GEMINI_MODEL, h1, h2, h3]
  · intro h; subst h; rfl
  · intro hpro hflash
    by_cases h25 : ("gemini-2.5-flash") ∈ available
    · left; simp [GEMINI_MODEL, h25]
    · rcases hflash with h | h
      · exact absurd h h25
      · right; simp [GEMINI_MODEL, h25, h]

/-- Witness for C5: a catalog holding both the pro and a flash
identifier resolves to a flash identifier. -/
theorem c5_witness :
    GEMINI_MODEL ["gemini-2.5-pro", "gemini-2.5-flash"] = "gemini-2.5-flash" ∨
    GEMINI_MODEL ["gemini-2.5-pro", "gemini-2.5-flash"] = "gemini-2.0-flash" :=
  (c5_selection_preference ["gemini-2.5-pro", "gemini-2.5-flash"]).2.2.2.2.2
    (by decide) (Or.inl (by decide))

/-- C6: the payload places the instruction template first and the image
last; exactly when the note is non-empty after stripping whitespace, a
labeled context segment holding the note verbatim (untrimmed) sits
between them, giving 3 parts, and otherwise the payload is the template
and the image only, giving 2 parts. -/
theorem c6_payload_structure (user_notes : String) (pil_image : PILImage) :
    (pyStrip user_notes ≠ "" →
      buildContent user_notes pil_image =
        [Part.text ARTIFACT_ANALYSIS_PROMPT,
         Part.text ("\nAdditional Context from User: " ++ user_notes ++ "\n"),
         Part.image pil_image] ∧
      (buildContent user_notes pil_image).length = 3) ∧
    (pyStrip user_notes = "" →
      buildContent user_notes pil_image =
        [Part.text ARTIFACT_ANALYSIS_PROMPT, Part.image pil_image] ∧
      (buildContent user_notes pil_image).length = 2) := by
  constructor
  · intro h
    refine ⟨by simp [buildContent, h], by simp [buildContent, h]⟩
  · intro h
    refine ⟨by simp [buildContent, h], by simp [buildContent, h]⟩

/-- Witness for C6: a non-whitespace note yields the 3-part payload, a
whitespace-only note the 2-part payload. -/
theorem c6_witness :
    buildContent ("Found near Giza") ⟨512, 512⟩ =
      [Part.text ARTIFACT_ANALYSIS_PROMPT,
       Part.text ("\nAdditional Context from User: " ++ "Found near Giza" ++ "\n"),
       Part.image ⟨512, 512⟩] ∧
    buildContent ("  ") ⟨512, 512⟩ =
      [Part.text ARTIFACT_ANALYSIS_PROMPT, Part.image ⟨512, 512⟩] :=
  ⟨((c6_payload_structure ("Found near Giza") ⟨512, 512⟩).1 (by decide)).1,
   ((c6_payload_structure ("  ") ⟨512, 512⟩).2 (by decide)).1⟩

/-- C7 counterexample: a successful listing with no generation-capable
model resolves to the empty catalog, so resolution does not produce a
non-empty sequence for every outcome of the query. -/
theorem c7_counterexample :
    AVAILABLE_MODELS (Except.ok []) = [] ∧
    AVAILABLE_MODELS
      (Except.ok [⟨"models/text-embedding-004", some ["embedContent"]⟩]) = [] :=
  ⟨rfl, by decide⟩

/-- C7 (amended): on a failed listing query, resolution substitutes the
static fallback list, which is non-empty and contains the documented
default identifier; only a successful query may resolve to an empty
catalog. -/
theorem c7_failure_fallback (e : String) :
    AVAILABLE_MODELS (Except.error e) = FALLBACK_MODELS ∧
    AVAILABLE_MODELS (Except.error e) ≠ [] ∧
    ("gemini-2.5-flash") ∈ AVAILABLE_MODELS (Except.error e) :=
  ⟨rfl,
   by show FALLBACK_MODELS ≠ []; decide,
   by show ("gemini-2.5-flash") ∈ FALLBACK_MODELS; decide⟩

/-- C8: with the API key absent or empty, the analyze button is
disabled, the sidebar shows the configuration error, and the results
section never reaches the invoker: its outcome is never a rendered
analysis nor a classified invoker failure. -/
theorem c8_missing_key_blocks_invoker (GOOGLE_API_KEY : Option String)
    (h : falsyKey GOOGLE_API_KEY = true) :
    (∀ uploaded_file_present,
      analyze_button_disabled uploaded_file_present GOOGLE_API_KEY = true) ∧
    sidebarStatus GOOGLE_API_KEY = SidebarStatus.apiKeyMissing ∧
    (∀ (analyze_button : Bool) (pil_image : Option PILImage)
       (gen : String → List Part → Except String String)
       (user_notes : String) (available : List String),
      resultsSection analyze_button pil_image GOOGLE_API_KEY gen user_notes available =
          ResultsOutcome.idle ∨
      resultsSection analyze_button pil_image GOOGLE_API_KEY gen user_notes available =
          ResultsOutcome.invalidImageError ∨
      resultsSection analyze_button pil_image GOOGLE_API_KEY gen user_notes available =
          ResultsOutcome.missingKeyError) := by
  refine ⟨?_, ?_, ?_⟩
  · intro u; simp [analyze_button_disabled, h]
  · simp [sidebarStatus, h]
  · intro b img gen notes avail
    cases b with
    | false => left; rfl
    | true =>
        cases img with
        | none => right; left; rfl
        | some i => right; right; simp [resultsSection, h]

/-- Witness for C8 with the key unset. -/
theorem c8_witness :
    analyze_button_disabled true none = true ∧
    sidebarStatus none = SidebarStatus.apiKeyMissing ∧
    (resultsSection true (some ⟨512, 512⟩) none genQuotaError ("") [] =
        ResultsOutcome.idle ∨
     resultsSection true (some ⟨512, 512⟩) none genQuotaError ("") [] =
        ResultsOutcome.invalidImageError ∨
     resultsSection true (some ⟨512, 512⟩) none genQuotaError ("") [] =
        ResultsOutcome.missingKeyError) :=
  ⟨(c8_missing_key_blocks_invoker none rfl).1 true,
   (c8_missing_key_blocks_invoker none rfl).2.1,
   (c8_missing_key_blocks_invoker none rfl).2.2 true (some ⟨512, 512⟩)
     genQuotaError ("") []⟩

/-- C9 counterexample: a terminal message containing "unauthorized" that
also contains "not found" is classified to the no-compatible-models
branch, not the authentication branch, refuting the claim as stated. -/
theorem c9_counterexample :
    strContains (pyLower ("Failed to analyze: model xyz not found: unauthorized"))
      ("unauthorized") = true ∧
    classify_error ("Failed to analyze: model xyz not found: unauthorized") =
      TroubleshootBranch.noCompatibleModels ∧
    TroubleshootBranch.noCompatibleModels ≠ TroubleshootBranch.authenticationError := by
  refine ⟨by decide, by decide, by decide⟩

/-- C9 (amended): classification is case-insensitive substring matching
checked in precedence order: when no "not found"/"not supported" match
precedes, a message containing "401", "permission", "unauthorized" or
"invalid" selects the authentication branch; when additionally none of
those occur, "rate limit" selects the rate-limit branch; and a message
matching none of the listed substrings selects the generic branch. -/
theorem c9_classification_precedence (error_str : String) :
    (strContains (pyLower error_str) ("not found") = false →
     strContains (pyLower error_str) ("not supported") = false →
     (strContains (pyLower error_str) ("401") = true ∨
      strContains (pyLower error_str) ("permission") = true ∨
      strContains (pyLower error_str) ("unauthorized") = true ∨
      strContains (pyLower error_str) ("invalid") = true) →
     classify_error error_str = TroubleshootBranch.authenticationError) ∧
    (strContains (pyLower error_str) ("not found") = false →
     strContains (pyLower error_str) ("not supported") = false →
     strContains (pyLower error_str) ("401") = false →
     strContains (pyLower error_str) ("permission") = false →
     strContains (pyLower error_str) ("unauthorized") = false →
     strContains (pyLower error_str) ("invalid") = false →
     strContains (pyLower error_str) ("rate limit") = true →
     classify_error error_str = TroubleshootBranch.rateLimitExceeded) ∧
    (strContains (pyLower error_str) ("not found") = false →
     strContains (pyLower error_str) ("not supported") = false →
     strContains (pyLower error_str) ("401") = false →
     strContains (pyLower error_str) ("permission") = false →
     strContains (pyLower error_str) ("unauthorized") = false →
     strContains (pyLower error_str) ("invalid") = false →
     strContains (pyLower error_str) ("rate limit") = false →
     classify_error error_str = TroubleshootBranch.genericFallback) := by
  refine ⟨?_, ?_, ?_⟩
  · intro h1 h2 h3
    rcases h3 with h | h | h | h <;> simp [classify_error, h1, h2, h]
  · intro h1 h2 h3 h4 h5 h6 h7
    simp [classify_error, h1, h2, h3, h4, h5, h6, h7]
  · intro h1 h2 h3 h4 h5 h6 h7
    simp [classify_error, h1, h2, h3, h4, h5, h6, h7]

/-- Witness for C9 (amended): a message containing "invalid" and none of
the higher-precedence substrings selects the authentication branch. -/
theorem c9_witness :
    classify_error ("Request had invalid authentication credentials") =
      TroubleshootBranch.authenticationError :=
  (c9_classification_precedence ("Request had invalid authentication credentials")).1
    rfl rfl (Or.inr (Or.inr (Or.inr rfl)))

/-- C10: the "not found"/"not supported" branch is checked before the
authentication branch, so a message matching it is classified to the
no-compatible-models branch even when it also contains "unauthorized". -/
theorem c10_not_found_precedence (error_str : String)
    (h1 : strContains (pyLower error_str) ("not found") = true ∨
          strContains (pyLower error_str) ("not supported") = true)
    (h2 : strContains (pyLower error_str) ("unauthorized") = true) :
    classify_error error_str = TroubleshootBranch.noCompatibleModels ∧
    classify_error error_str ≠ TroubleshootBranch.authenticationError := by
  have he : classify_error error_str = TroubleshootBranch.noCompatibleModels := by
    rcases h1 with h | h <;> simp [classify_error, h]
  exact ⟨he, by rw [he]; decide⟩

/-- Witness for C10 at a concrete message containing both
"not supported" and "unauthorized". -/
theorem c10_witness :
    classify_error ("model gemini-x not supported: unauthorized") =
      TroubleshootBranch.noCompatibleModels ∧
    classify_error ("model gemini-x not supported: unauthorized") ≠
      TroubleshootBranch.authenticationError :=
  c10_not_found_precedence ("model gemini-x not supported: unauthorized")
    (Or.inr rfl) rfl

end ArtifactApp
